import Mathlib

/-!
Verification development for the Telegram ingestion client
(`src/telegram_scraper.py`): a shallow embedding of `TelegramScraper`'s
`scrape_channel`, `_get_media_type`, `_download_media` and `save_to_json`,
together with theorems about the retry/backoff controller, the record
normalizer, the media fetcher and the lake writer.

The external collaborators (Telethon client, filesystem, clock) are modelled
as explicit inputs: each loop iteration of `scrape_channel` consumes one
`Attempt` from an oracle describing what the remote session does on that
attempt, the filesystem is a list of existing file paths, and the clock is a
fixed `now` string for `scraped_at` timestamps.
-/

namespace TelegramScraper

/-- Relevant view of a Python `datetime`: `isoformat()`, `strftime('%Y-%m-%d')`
and `int(timestamp())`, carried as uninterpreted data. -/
structure MsgDate where
  iso : String
  dayStr : String
  timestamp : Int
  deriving DecidableEq, Repr

/-- Attachment variants: `MessageMediaPhoto`, `MessageMediaDocument` (with the
document's optional `mime_type` attribute), and any other media class. -/
inductive Media
  | photo
  | document (mimeType : Option String)
  | otherMedia
  deriving DecidableEq, Repr

/-- A raw Telethon message as observed by `scrape_channel`: identity, text,
date, media reference and engagement counters.  `dlOk` is the collaborator
oracle for whether `client.download_media` would succeed on this message. -/
structure RawMessage where
  id : Int
  text : Option String
  date : Option MsgDate
  media : Option Media
  views : Nat
  forwards : Nat
  replies : Nat
  groupedId : Option Int
  dlOk : Bool
  deriving DecidableEq, Repr

/-- The `raw_data` sub-dictionary of a scraped record. -/
structure RawData where
  views : Nat
  forwards : Nat
  replies : Nat
  grouped_id : Option Int
  deriving DecidableEq, Repr

/-- The `message_data` dictionary built per message.  `media_path = none`
means the key is absent from the dictionary; `media_path = some p?` means the
key is present with value `p?` (`none` being JSON null after a failed
download). -/
structure Record where
  message_id : Int
  channel_name : String
  message_text : String
  message_date : Option String
  has_media : Bool
  media_type : Option String
  scraped_at : String
  raw_data : RawData
  media_path : Option (Option String)
  deriving DecidableEq, Repr

/-- `channel_name.replace('@', '')`: delete every `@` character. -/
def stripAtSign (s : String) : String :=
  String.mk (s.data.filter (fun c => c ≠ '@'))

/-- Python `'needle' in hay` substring test on the underlying characters. -/
def containsChars (needle : List Char) : List Char → Bool
  | [] => needle.isPrefixOf []
  | c :: rest => needle.isPrefixOf (c :: rest) || containsChars needle rest

/-- Substring containment between strings. -/
def containsSubstring (hay needle : String) : Bool :=
  containsChars needle.data hay.data

/-- `_get_media_type`: `None` for no media, `'photo'`, `'document'`, else
`'other'`. -/
def get_media_type : Option Media → Option String
  | none => none
  | some Media.photo => some "photo"
  | some (Media.document _) => some "document"
  | some Media.otherMedia => some "other"

/-- `jsonschema.validate(message_data, MESSAGE_SCHEMA)`.  The schema requires
the keys `message_id .. raw_data` with the JSON types given in
`MESSAGE_SCHEMA`; a `Record` value carries exactly those fields at those
types, so validation always succeeds on the dictionaries `scrape_channel`
builds, and the `ValidationError` branch is unreachable. -/
def validateMessage (_r : Record) : Bool := true

/-- Python `c.isspace()` over the ASCII whitespace characters relevant to
`str.strip()`. -/
def isPySpace (c : Char) : Bool :=
  c = ' ' || c = '\t' || c = '\n' || c = '\x0d' || c = '\x0b' || c = '\x0c'

/-- `not message_text.strip()`: true iff the string has only whitespace
characters (in particular when it is empty). -/
def strippedEmpty (s : String) : Bool :=
  s.data.all isPySpace

/-- Extension resolution of `_download_media` (lines 148-161).  `none` models
the `AttributeError` raised by `message.media.document` when the media object
has no `document` attribute (any media other than photo/document); that
exception is caught by the enclosing handler. -/
def mediaExt : Media → Option String
  | Media.photo => some ".jpg"
  | Media.document (some mime) =>
      if containsSubstring mime "image/jpeg" then some ".jpg"
      else if containsSubstring mime "image/png" then some ".png"
      else if containsSubstring mime "video" then some ".mp4"
      else some ".bin"
  | Media.document none => some ".bin"
  | Media.otherMedia => none

/-- The target file path `_download_media` computes, when it computes one:
`data/raw/media/{clean_channel_name}/{date_str}/{id}_{timestamp}{ext}`.
Returns `none` when the body raises before reaching the download: on media
without a `document` attribute (extension resolution), and on
`message.date.timestamp()` when the message has no date (note the `'unknown'`
date directory placeholder is computed but the very next use of
`message.date` raises). -/
def targetPath (msg : RawMessage) (channel_name : String) : Option String :=
  let date_str := match msg.date with
    | some d => d.dayStr
    | none => "unknown"
  let clean_channel_name := stripAtSign channel_name
  let media_dir := "data/raw/media/" ++ clean_channel_name ++ "/" ++ date_str
  match msg.media with
  | none => none
  | some m =>
    match mediaExt m with
    | none => none
    | some ext =>
      match msg.date with
      | none => none
      | some d =>
        some (media_dir ++ "/" ++ toString msg.id ++ "_" ++ toString d.timestamp ++ ext)

/-- Outcome of `_download_media`: the returned path (or `None`), and whether
the network download primitive `client.download_media` was invoked. -/
structure DlResult where
  path : Option String
  invoked : Bool
  deriving DecidableEq, Repr

/-- `_download_media(message, channel_name)` against a filesystem `fs` (the
set of existing file paths).  Any exception inside the body is caught and
yields `None`; an existing file short-circuits the download. -/
def download_media (msg : RawMessage) (channel_name : String) (fs : List String) : DlResult :=
  match targetPath msg channel_name with
  | none => ⟨none, false⟩
  | some p =>
    if fs.contains p then ⟨some p, false⟩
    else if msg.dlOk then ⟨some p, true⟩
    else ⟨none, true⟩

/-- `isinstance(message.media, (MessageMediaPhoto, MessageMediaDocument))`
guard (with `message.media and` short-circuit). -/
def isDownloadable : Option Media → Bool
  | some Media.photo => true
  | some (Media.document _) => true
  | _ => false

/-- Observable suspension / call events of one `scrape_channel` run. -/
inductive Event
  | paceSleep
  | floodSleep (seconds : Nat)
  | backoffSleep (seconds : Nat)
  | fetchMedia (messageId : Int)
  deriving DecidableEq, Repr

/-- The `message_data` dictionary of lines 72-86 (before the conditional
`media_path` key). -/
def build_message_data (channel_name now : String) (msg : RawMessage) : Record where
  message_id := msg.id
  channel_name := stripAtSign channel_name
  message_text := msg.text.getD ""
  message_date := msg.date.map MsgDate.iso
  has_media := msg.media.isSome
  media_type := get_media_type msg.media
  scraped_at := now
  raw_data := ⟨msg.views, msg.forwards, msg.replies, msg.groupedId⟩
  media_path := none

/-- Per-message step: build the dictionary and, for photo/document media, call
`_download_media` and attach the `media_path` key.  Returns the record, the
filesystem after a successful download, and the fetch events emitted. -/
def recordFor (channel_name now : String) (msg : RawMessage) (fs : List String) :
    Record × List String × List Event :=
  let base := build_message_data channel_name now msg
  if isDownloadable msg.media then
    let dl := download_media msg channel_name fs
    let fs2 := match dl.path, dl.invoked with
      | some p, true => fs ++ [p]
      | _, _ => fs
    ({ base with media_path := some dl.path }, fs2, [Event.fetchMedia msg.id])
  else (base, fs, [])

/-- Result of iterating the messages of one attempt. -/
structure IterOut where
  records : List Record
  fs : List String
  events : List Event
  deriving Repr

/-- The `async for message in iter_messages` body (lines 70-108): per message,
build and validate the dictionary, skip empty-text messages, append, and pace
with a one-second sleep after every tenth appended message. -/
def processMessages (channel_name now : String) :
    List RawMessage → Nat → List String → IterOut
  | [], _, fs => ⟨[], fs, []⟩
  | msg :: rest, message_count, fs =>
    let step := recordFor channel_name now msg fs
    let message_data := step.1
    let fs' := step.2.1
    let evs := step.2.2
    if validateMessage message_data then
      if strippedEmpty message_data.message_text then
        let out := processMessages channel_name now rest message_count fs'
        ⟨out.records, out.fs, evs ++ out.events⟩
      else
        let message_count' := message_count + 1
        let pace : List Event := if message_count' % 10 = 0 then [Event.paceSleep] else []
        let out := processMessages channel_name now rest message_count' fs'
        ⟨message_data :: out.records, out.fs, evs ++ pace ++ out.events⟩
    else
      let out := processMessages channel_name now rest message_count fs'
      ⟨out.records, out.fs, evs ++ out.events⟩

/-- How one loop iteration of `scrape_channel` terminates: `none` when the
iteration runs to completion (reaching `break`), or the exception that escaped
the attempt.  A `get_entity` failure yields an attempt with `msgs = []`. -/
inductive AttemptErr
  | floodWait (seconds : Nat)
  | channelPrivate
  | usernameNotOccupied
  | generic
  deriving DecidableEq, Repr

/-- Behaviour of the remote session on one attempt: the messages yielded
before the attempt terminated, and how it terminated. -/
structure Attempt where
  msgs : List RawMessage
  err : Option AttemptErr
  deriving Repr

/-- Result of a `scrape_channel` run: the returned `messages_data`, the number
of loop iterations executed, the final `retry_count`, the event trace, and the
filesystem after the run. -/
structure ScrapeResult where
  records : List Record
  attempts : Nat
  finalRetry : Nat
  trace : List Event
  fs : List String
  deriving Repr

/-- The `while retry_count < max_retries` loop of `scrape_channel`
(lines 63-127).  `oracle i` is what the session does on the `i`-th iteration.
`fuel` is the structural bound `max_retries - retry_count` on remaining
iterations (the loop's termination measure: every continuing branch increments
`retry_count`); with `fuel = max_retries` at entry it never cuts a run short.
`messages_data` accumulates across attempts in the source; here each level
returns its own contribution and prepends it, which concatenates to the same
list. -/
def scrapeLoop (channel_name now : String) (oracle : Nat → Attempt)
    (backoff max_retries : Nat) :
    Nat → Nat → Nat → List String → ScrapeResult
  | 0, _, retry_count, fs => ⟨[], 0, retry_count, [], fs⟩
  | fuel + 1, attemptIdx, retry_count, fs =>
    if retry_count < max_retries then
      let a := oracle attemptIdx
      let out := processMessages channel_name now a.msgs 0 fs
      match a.err with
      | none =>
          ⟨out.records, 1, retry_count, out.events, out.fs⟩
      | some (AttemptErr.floodWait n) =>
          let rest := scrapeLoop channel_name now oracle backoff max_retries
            fuel (attemptIdx + 1) (retry_count + 1) out.fs
          ⟨out.records ++ rest.records, 1 + rest.attempts, rest.finalRetry,
            out.events ++ Event.floodSleep n :: rest.trace, rest.fs⟩
      | some AttemptErr.channelPrivate =>
          ⟨out.records, 1, retry_count, out.events, out.fs⟩
      | some AttemptErr.usernameNotOccupied =>
          ⟨out.records, 1, retry_count, out.events, out.fs⟩
      | some AttemptErr.generic =>
          let retry' := retry_count + 1
          let rest := scrapeLoop channel_name now oracle backoff max_retries
            fuel (attemptIdx + 1) retry' out.fs
          if retry' < max_retries then
            ⟨out.records ++ rest.records, 1 + rest.attempts, rest.finalRetry,
              out.events ++ Event.backoffSleep (backoff * retry') :: rest.trace, rest.fs⟩
          else
            ⟨out.records ++ rest.records, 1 + rest.attempts, rest.finalRetry,
              out.events ++ rest.trace, rest.fs⟩
    else ⟨[], 0, retry_count, [], fs⟩

/-- `scrape_channel(channel_name, limit)` with the source's constants
`max_retries = 5` and `backoff = 5`.  The per-attempt message lists of the
oracle already reflect the `limit` argument passed to `iter_messages`. -/
def scrape_channel (channel_name now : String) (oracle : Nat → Attempt)
    (fs : List String) : ScrapeResult :=
  scrapeLoop channel_name now oracle 5 5 5 0 0 fs

/-- Reference accumulation: the records produced by processing, in order, the
message lists of a sequence of attempts, threading the filesystem through. -/
def attemptsRecords (channel_name now : String) :
    List (List RawMessage) → List String → List Record
  | [], _ => []
  | ms :: rest, fs =>
    let out := processMessages channel_name now ms 0 fs
    out.records ++ attemptsRecords channel_name now rest out.fs

/-- Filesystem operations of the lake writer, as observable effects. -/
inductive FileOp
  | makeDirs (dir : String)
  | openTrunc (path : String)
  | writeAll (path : String) (data : List Record)
  | closeFile (path : String)
  | rename (src : String) (dst : String)
  deriving DecidableEq, Repr

/-- `save_to_json(data, channel_name)` run on date `date_str`: make the output
directory, then `open(filename, 'w')` (which truncates the target in place)
and dump the whole batch into it, then close.  No temporary path and no rename
appears in the trace. -/
def save_to_json (data : List Record) (channel_name : String) (date_str : String) :
    List FileOp :=
  let output_dir := "data/raw/telegram_messages/" ++ date_str
  let filename := output_dir ++ "/" ++ channel_name ++ ".json"
  [FileOp.makeDirs output_dir, FileOp.openTrunc filename,
    FileOp.writeAll filename data, FileOp.closeFile filename]

/-- What a reader of `path` observes after a prefix of the operation trace:
`none` if the file does not exist, `some none` if it exists but holds no
complete batch yet (just truncated), `some (some d)` once batch `d` is fully
written.  `save_to_json` emits no rename, so rename is not interpreted. -/
def contentAfter (ops : List FileOp) (path : String) : Option (Option (List Record)) :=
  ops.foldl (fun st op =>
    match op with
    | FileOp.openTrunc p => if p = path then some none else st
    | FileOp.writeAll p d => if p = path then some (some d) else st
    | _ => st) none

/-- Whether an operation is a rename. -/
def FileOp.isRenameOp : FileOp → Bool
  | FileOp.rename _ _ => true
  | _ => false

/-- Modelled from the spec's words for the Lake Writer contract: the write is
performed on a temporary path which is then renamed onto the target, and the
target itself is never opened or written directly. -/
def specAtomicViaRename (ops : List FileOp) (target : String) : Bool :=
  (ops.all fun op => match op with
    | FileOp.openTrunc p => decide (p ≠ target)
    | FileOp.writeAll p _ => decide (p ≠ target)
    | _ => true) &&
  (ops.any fun op => match op with
    | FileOp.rename _ dst => decide (dst = target)
    | _ => false)

/-- Whether an event is a backoff sleep. -/
def Event.isBackoff : Event → Bool
  | Event.backoffSleep _ => true
  | _ => false

/-! Structural lemmas about the per-message step and the retry loop. -/

/-- Every event a per-message step emits is a fetch of that message's id, and
only for photo/document media. -/
lemma recordFor_events (channel_name now : String) (msg : RawMessage) (fs : List String) :
    ∀ e ∈ (recordFor channel_name now msg fs).2.2,
      e = Event.fetchMedia msg.id ∧ isDownloadable msg.media = true := by
  unfold recordFor
  by_cases h : isDownloadable msg.media
  · simp [h]
  · simp [h]

/-- Field-level facts about the record a per-message step builds: the
`has_media`/`media_type` invariant, the `media_type` enumeration, absence of
the `media_path` key for non-photo/document attachments, and the identity
fields. -/
lemma recordFor_inv (channel_name now : String) (msg : RawMessage) (fs : List String) :
    ((recordFor channel_name now msg fs).1.has_media = true ↔
      (recordFor channel_name now msg fs).1.media_type ≠ none) ∧
    ((recordFor channel_name now msg fs).1.media_type = none ∨
      (recordFor channel_name now msg fs).1.media_type = some "photo" ∨
      (recordFor channel_name now msg fs).1.media_type = some "document" ∨
      (recordFor channel_name now msg fs).1.media_type = some "other") ∧
    ((recordFor channel_name now msg fs).1.media_type = some "other" →
      (recordFor channel_name now msg fs).1.media_path = none ∧
      (recordFor channel_name now msg fs).1.has_media = true) ∧
    (recordFor channel_name now msg fs).1.message_id = msg.id ∧
    (recordFor channel_name now msg fs).1.message_text = msg.text.getD "" := by
  rcases hm : msg.media with - | mv
  · simp [recordFor, isDownloadable, hm, build_message_data, get_media_type]
  · cases mv <;>
      simp [recordFor, isDownloadable, hm, build_message_data, get_media_type]

/-- Every event the message iteration emits is either a pacing sleep or a
media fetch for a yielded message with photo/document media. -/
lemma processMessages_events (channel_name now : String) :
    ∀ (ms : List RawMessage) (cnt : Nat) (fs : List String) (e : Event),
      e ∈ (processMessages channel_name now ms cnt fs).events →
      e = Event.paceSleep ∨
        ∃ m, m ∈ ms ∧ e = Event.fetchMedia m.id ∧ isDownloadable m.media = true := by
  intro ms
  induction ms with
  | nil =>
    intro cnt fs e he
    simp [processMessages] at he
  | cons m rest ih =>
    intro cnt fs e he
    simp only [processMessages, validateMessage, if_true] at he
    split at he
    · rcases List.mem_append.mp he with h | h
      · obtain ⟨he', hd⟩ := recordFor_events channel_name now m fs e h
        exact Or.inr ⟨m, List.mem_cons_self m rest, he', hd⟩
      · rcases ih _ _ _ h with h' | ⟨m', hm', he', hd⟩
        · exact Or.inl h'
        · exact Or.inr ⟨m', List.mem_cons_of_mem m hm', he', hd⟩
    · rcases List.mem_append.mp he with h | h
      · rcases List.mem_append.mp h with h2 | h2
        · obtain ⟨he', hd⟩ := recordFor_events channel_name now m fs e h2
          exact Or.inr ⟨m, List.mem_cons_self m rest, he', hd⟩
        · left
          revert h2
          split <;> intro h2 <;> simp_all
      · rcases ih _ _ _ h with h' | ⟨m', hm', he', hd⟩
        · exact Or.inl h'
        · exact Or.inr ⟨m', List.mem_cons_of_mem m hm', he', hd⟩

/-- The message iteration emits no backoff sleeps. -/
lemma processMessages_filter_backoff (channel_name now : String)
    (ms : List RawMessage) (cnt : Nat) (fs : List String) :
    ((processMessages channel_name now ms cnt fs).events).filter Event.isBackoff = [] := by
  rw [List.filter_eq_nil_iff]
  intro e he
  rcases processMessages_events channel_name now ms cnt fs e he with rfl | ⟨m, -, rfl, -⟩ <;>
    simp [Event.isBackoff]

/-- Every record the message iteration keeps has non-blank text and is the
per-message record of one of the yielded messages. -/
lemma processMessages_records_mem (channel_name now : String) :
    ∀ (ms : List RawMessage) (cnt : Nat) (fs : List String) (r : Record),
      r ∈ (processMessages channel_name now ms cnt fs).records →
      strippedEmpty r.message_text = false ∧
        ∃ m, m ∈ ms ∧ ∃ fs2, r = (recordFor channel_name now m fs2).1 := by
  intro ms
  induction ms with
  | nil =>
    intro cnt fs r hr
    simp [processMessages] at hr
  | cons m rest ih =>
    intro cnt fs r hr
    simp only [processMessages, validateMessage, if_true] at hr
    split at hr
    case isTrue hse =>
      obtain ⟨h1, m', hm', fs2, heq⟩ := ih _ _ _ hr
      exact ⟨h1, m', List.mem_cons_of_mem m hm', fs2, heq⟩
    case isFalse hse =>
      rcases List.mem_cons.mp hr with rfl | h
      · exact ⟨Bool.of_not_eq_true hse, m, List.mem_cons_self m rest, fs, rfl⟩
      · obtain ⟨h1, m', hm', fs2, heq⟩ := ih _ _ _ h
        exact ⟨h1, m', List.mem_cons_of_mem m hm', fs2, heq⟩

/-- The kept records' message ids form a sublist of the yielded messages'
ids: the iteration never invents or duplicates an id within one attempt. -/
lemma processMessages_ids_sublist (channel_name now : String) :
    ∀ (ms : List RawMessage) (cnt : Nat) (fs : List String),
      ((processMessages channel_name now ms cnt fs).records.map Record.message_id).Sublist
        (ms.map RawMessage.id) := by
  intro ms
  induction ms with
  | nil =>
    intro cnt fs
    simp [processMessages]
  | cons m rest ih =>
    intro cnt fs
    simp only [processMessages, validateMessage, if_true, List.map_cons]
    split
    · exact (ih _ _).cons _
    · simp only [List.map_cons, (recordFor_inv channel_name now m fs).2.2.2.1]
      exact (ih _ _).cons₂ _

/-- Every record the retry loop returns comes from the message iteration of
one of the oracle's attempts. -/
lemma scrapeLoop_records_mem (channel_name now : String) (oracle : Nat → Attempt)
    (backoff max_retries : Nat) :
    ∀ (fuel attemptIdx retry_count : Nat) (fs : List String) (r : Record),
      r ∈ (scrapeLoop channel_name now oracle backoff max_retries
            fuel attemptIdx retry_count fs).records →
      ∃ i fs2, r ∈ (processMessages channel_name now (oracle i).msgs 0 fs2).records := by
  intro fuel
  induction fuel with
  | zero =>
    intro idx rc fs r hr
    simp [scrapeLoop] at hr
  | succ fuel ih =>
    intro idx rc fs r hr
    simp only [scrapeLoop] at hr
    split at hr
    · split at hr
      · exact ⟨idx, fs, hr⟩
      · rcases List.mem_append.mp hr with h | h
        · exact ⟨idx, fs, h⟩
        · exact ih _ _ _ _ h
      · exact ⟨idx, fs, hr⟩
      · exact ⟨idx, fs, hr⟩
      · split at hr <;>
          · rcases List.mem_append.mp hr with h | h
            · exact ⟨idx, fs, h⟩
            · exact ih _ _ _ _ h
    · simp at hr

/-- Every event the retry loop emits is a flood sleep, a backoff sleep, or an
event of some attempt's message iteration. -/
lemma scrapeLoop_trace_events (channel_name now : String) (oracle : Nat → Attempt)
    (backoff max_retries : Nat) :
    ∀ (fuel attemptIdx retry_count : Nat) (fs : List String) (e : Event),
      e ∈ (scrapeLoop channel_name now oracle backoff max_retries
            fuel attemptIdx retry_count fs).trace →
      (∃ n, e = Event.floodSleep n) ∨ (∃ n, e = Event.backoffSleep n) ∨
        ∃ i fs2, e ∈ (processMessages channel_name now (oracle i).msgs 0 fs2).events := by
  intro fuel
  induction fuel with
  | zero =>
    intro idx rc fs e he
    simp [scrapeLoop] at he
  | succ fuel ih =>
    intro idx rc fs e he
    simp only [scrapeLoop] at he
    split at he
    · split at he
      · exact Or.inr (Or.inr ⟨idx, fs, he⟩)
      · rcases List.mem_append.mp he with h | h
        · exact Or.inr (Or.inr ⟨idx, fs, h⟩)
        · rcases List.mem_cons.mp h with rfl | h2
          · exact Or.inl ⟨_, rfl⟩
          · exact ih _ _ _ _ h2
      · exact Or.inr (Or.inr ⟨idx, fs, he⟩)
      · exact Or.inr (Or.inr ⟨idx, fs, he⟩)
      · split at he <;> rcases List.mem_append.mp he with h | h
        · exact Or.inr (Or.inr ⟨idx, fs, h⟩)
        · rcases List.mem_cons.mp h with rfl | h2
          · exact Or.inr (Or.inl ⟨_, rfl⟩)
          · exact ih _ _ _ _ h2
        · exact Or.inr (Or.inr ⟨idx, fs, h⟩)
        · exact ih _ _ _ _ h
    · simp at he

/-- Filtering backoff sleeps out of a trace with exactly four backoff sleeps
interleaved between backoff-free segments. -/
lemma filter_backoff_shape (l0 l1 l2 l3 l4 : List Event)
    (h0 : l0.filter Event.isBackoff = []) (h1 : l1.filter Event.isBackoff = [])
    (h2 : l2.filter Event.isBackoff = []) (h3 : l3.filter Event.isBackoff = [])
    (h4 : l4.filter Event.isBackoff = []) :
    ((l0 ++ Event.backoffSleep 5 :: (l1 ++ Event.backoffSleep 10 ::
        (l2 ++ Event.backoffSleep 15 :: (l3 ++ Event.backoffSleep 20 ::
          (l4 ++ ([] : List Event))))))).filter Event.isBackoff =
      [Event.backoffSleep 5, Event.backoffSleep 10, Event.backoffSleep 15,
        Event.backoffSleep 20] := by
  simp [List.filter_append, List.filter_cons, h0, h1, h2, h3, h4, Event.isBackoff]

/-! Concrete inputs used by witnesses and counterexamples. -/

/-- A plain text message (no media, no date). -/
def msgC1 : RawMessage := ⟨21, some "hello", none, none, 0, 0, 0, none, true⟩

/-- A plain text message with id 1. -/
def msgC4 : RawMessage := ⟨1, some "hi", none, none, 0, 0, 0, none, true⟩

/-- A plain text message with id 2. -/
def msgC4b : RawMessage := ⟨2, some "ho", none, none, 0, 0, 0, none, true⟩

/-- A photo message with a date. -/
def msgC5 : RawMessage :=
  ⟨5, some "caption", some ⟨"2024-03-04T05:06:07", "2024-03-04", 222⟩,
    some Media.photo, 4, 2, 1, none, true⟩

/-- A photo message with no date. -/
def msgC6 : RawMessage := ⟨9, some "pic", none, some Media.photo, 0, 0, 0, none, true⟩

/-- A photo message with a date, used for the idempotence witness. -/
def msgC7 : RawMessage :=
  ⟨7, some "x", some ⟨"2024-01-02T03:04:05", "2024-01-02", 111⟩,
    some Media.photo, 0, 0, 0, none, true⟩

/-- The media path `_download_media` computes for `msgC7` in channel
`@alpha`. -/
def pathC7 : String := "data/raw/media/alpha/2024-01-02/7_111.jpg"

/-- A record as persisted by the lake writer. -/
def recC8 : Record := ⟨1, "alpha", "hi", none, false, none, "t0", ⟨0, 0, 0, none⟩, none⟩

/-- A message whose attachment is neither a photo nor a document. -/
def msgC10 : RawMessage := ⟨3, some "hey", none, some Media.otherMedia, 1, 2, 3, none, true⟩

/-! Claim theorems. -/

/-- C1, counterexample: the claim says rate-limiting never consumes the
bounded retry budget, but `except FloodWaitError` executes `retry_count += 1`
(line 115).  With a session that rate-limits on every attempt (wait 7) and
would succeed on the sixth attempt, `scrape_channel` stops after 5 attempts
with the retry budget exhausted by flood waits alone and returns nothing. -/
theorem C1_counterexample :
    (scrape_channel "chan" "t0"
        (fun i => if i < 5 then ⟨[], some (AttemptErr.floodWait 7)⟩
          else ⟨[msgC1], none⟩) []).finalRetry = 5 ∧
    (scrape_channel "chan" "t0"
        (fun i => if i < 5 then ⟨[], some (AttemptErr.floodWait 7)⟩
          else ⟨[msgC1], none⟩) []).attempts = 5 ∧
    (scrape_channel "chan" "t0"
        (fun i => if i < 5 then ⟨[], some (AttemptErr.floodWait 7)⟩
          else ⟨[msgC1], none⟩) []).trace =
      [Event.floodSleep 7, Event.floodSleep 7, Event.floodSleep 7,
        Event.floodSleep 7, Event.floodSleep 7] ∧
    (scrape_channel "chan" "t0"
        (fun i => if i < 5 then ⟨[], some (AttemptErr.floodWait 7)⟩
          else ⟨[msgC1], none⟩) []).records = [] :=
  ⟨rfl, rfl, rfl, rfl⟩

/-- C1, amended: on a rate-limit signal carrying wait duration `n`,
`scrape_channel` suspends for exactly `n` seconds and then resumes the
attempt, but it increments its retry counter: rate-limiting does consume the
bounded retry budget (with no additional backoff sleep). -/
theorem C1_flood_wait_behaviour (channel_name now : String) (fs : List String) (n : Nat) :
    (scrape_channel channel_name now
        (fun i => match i with
          | 0 => ⟨[], some (AttemptErr.floodWait n)⟩
          | _ + 1 => ⟨[], none⟩) fs).trace = [Event.floodSleep n] ∧
    (scrape_channel channel_name now
        (fun i => match i with
          | 0 => ⟨[], some (AttemptErr.floodWait n)⟩
          | _ + 1 => ⟨[], none⟩) fs).finalRetry = 1 ∧
    (scrape_channel channel_name now
        (fun i => match i with
          | 0 => ⟨[], some (AttemptErr.floodWait n)⟩
          | _ + 1 => ⟨[], none⟩) fs).attempts = 2 ∧
    (scrape_channel channel_name now
        (fun i => match i with
          | 0 => ⟨[], some (AttemptErr.floodWait n)⟩
          | _ + 1 => ⟨[], none⟩) fs).records = [] :=
  ⟨rfl, rfl, rfl, rfl⟩

/-- C3: when the first attempt fails with a permanent condition
(`ChannelPrivateError` or `UsernameNotOccupiedError`), `scrape_channel`
terminates after that single attempt, without retries or sleeps, and returns
the sequence accumulated in the attempt (empty when entity resolution failed
before any message was iterated). -/
theorem C3_permanent_failure (channel_name now : String) (fs : List String)
    (ms : List RawMessage) (e : AttemptErr) (tl : Nat → Attempt)
    (he : e = AttemptErr.channelPrivate ∨ e = AttemptErr.usernameNotOccupied) :
    (scrape_channel channel_name now
        (fun i => match i with | 0 => ⟨ms, some e⟩ | k + 1 => tl k) fs).records
      = (processMessages channel_name now ms 0 fs).records ∧
    (scrape_channel channel_name now
        (fun i => match i with | 0 => ⟨ms, some e⟩ | k + 1 => tl k) fs).attempts = 1 ∧
    (scrape_channel channel_name now
        (fun i => match i with | 0 => ⟨ms, some e⟩ | k + 1 => tl k) fs).finalRetry = 0 ∧
    (scrape_channel channel_name now
        (fun i => match i with | 0 => ⟨ms, some e⟩ | k + 1 => tl k) fs).trace
      = (processMessages channel_name now ms 0 fs).events := by
  rcases he with rfl | rfl
  · exact ⟨rfl, rfl, rfl, rfl⟩
  · exact ⟨rfl, rfl, rfl, rfl⟩

/-- C3, witness: a channel whose entity resolution immediately reports
`channelPrivate` yields the empty sequence after exactly one attempt. -/
theorem C3_witness :
    (scrape_channel "chan" "t0"
        (fun i => match i with
          | 0 => Attempt.mk [] (some AttemptErr.channelPrivate)
          | _ + 1 => Attempt.mk [] none) []).records = [] ∧
    (scrape_channel "chan" "t0"
        (fun i => match i with
          | 0 => Attempt.mk [] (some AttemptErr.channelPrivate)
          | _ + 1 => Attempt.mk [] none) []).attempts = 1 ∧
    (scrape_channel "chan" "t0"
        (fun i => match i with
          | 0 => Attempt.mk [] (some AttemptErr.channelPrivate)
          | _ + 1 => Attempt.mk [] none) []).finalRetry = 0 := by
  have h := C3_permanent_failure "chan" "t0" [] [] AttemptErr.channelPrivate
    (fun _ => Attempt.mk [] none) (Or.inl rfl)
  exact ⟨h.1, h.2.1, h.2.2.1⟩

/-- C6: the claim says a message with media but no date gets a literal
placeholder date segment and the fetch still succeeds; in the code the
`'unknown'` placeholder is computed for the directory, but the very next
access `message.date.timestamp()` raises on the missing date, the exception
is caught, and the fetch returns `None` without ever invoking the download
primitive: no path is produced for a dateless media message. -/
theorem C6_no_date_fetch_returns_none :
    download_media msgC6 "alpha" [] = ⟨none, false⟩ ∧
    targetPath msgC6 "alpha" = none :=
  ⟨rfl, rfl⟩

/-- C7: if a file already exists at the computed media path, `_download_media`
returns that path without invoking the network download primitive and without
error. -/
theorem C7_existing_file_skips_download (msg : RawMessage) (channel_name : String)
    (fs : List String) (p : String)
    (hp : targetPath msg channel_name = some p) (hfs : fs.contains p = true) :
    download_media msg channel_name fs = ⟨some p, false⟩ := by
  unfold download_media
  rw [hp]
  dsimp only
  rw [if_pos hfs]

/-- C7, witness: a photo message whose computed path is already on disk is
returned as-is with the download primitive not invoked. -/
theorem C7_witness :
    targetPath msgC7 "@alpha" = some pathC7 ∧
    List.contains [pathC7] pathC7 = true ∧
    download_media msgC7 "@alpha" [pathC7] = ⟨some pathC7, false⟩ :=
  ⟨rfl, rfl, C7_existing_file_skips_download msgC7 "@alpha" [pathC7] pathC7 rfl rfl⟩

/-- C8, counterexample: the claim says the writer writes to a temporary path
and renames so a reader never observes a partial file; `save_to_json` instead
truncates the final path in place and writes into it, so its trace has no
rename, and after the `open(filename, 'w')` step a reader of the target sees
an existing file whose content is not yet the written batch. -/
theorem C8_counterexample :
    specAtomicViaRename (save_to_json [recC8] "alpha" "2024-01-01")
      "data/raw/telegram_messages/2024-01-01/alpha.json" = false ∧
    contentAfter ((save_to_json [recC8] "alpha" "2024-01-01").take 2)
      "data/raw/telegram_messages/2024-01-01/alpha.json" = some none ∧
    contentAfter (save_to_json [recC8] "alpha" "2024-01-01")
      "data/raw/telegram_messages/2024-01-01/alpha.json" = some (some [recC8]) ∧
    (some (none : Option (List Record)) ≠ some (some [recC8])) := by
  refine ⟨rfl, rfl, rfl, ?_⟩
  decide

/-- C8, amended: `save_to_json` performs a direct, in-place write: it opens
the final target path itself (truncating it) and writes the batch there, and
its operation trace contains no rename, so no temporary-path-and-rename
atomicity is provided to concurrent readers. -/
theorem C8_direct_write (data : List Record) (channel_name date_str : String) :
    (save_to_json data channel_name date_str).filter FileOp.isRenameOp = [] ∧
    FileOp.openTrunc ("data/raw/telegram_messages/" ++ date_str ++ "/" ++ channel_name ++ ".json")
      ∈ save_to_json data channel_name date_str ∧
    FileOp.writeAll ("data/raw/telegram_messages/" ++ date_str ++ "/" ++ channel_name ++ ".json")
        data
      ∈ save_to_json data channel_name date_str := by
  refine ⟨rfl, ?_, ?_⟩
  · exact List.Mem.tail _ (List.Mem.head _)
  · exact List.Mem.tail _ (List.Mem.tail _ (List.Mem.head _))

/-- C2: against a session that raises a transient (retryable) error on every
attempt, `scrape_channel` executes exactly `max_retries = 5` attempts, its
backoff sleeps between consecutive attempts are `backoff * retry_count`
seconds (5, 10, 15, 20), and it returns — without raising — the records
accumulated across all attempts before the terminal failure. -/
theorem C2_transient_exhausts_retries (channel_name now : String)
    (ms : Nat → List RawMessage) (fs : List String) :
    (scrape_channel channel_name now
        (fun i => ⟨ms i, some AttemptErr.generic⟩) fs).attempts = 5 ∧
    ((scrape_channel channel_name now
        (fun i => ⟨ms i, some AttemptErr.generic⟩) fs).trace.filter Event.isBackoff) =
      [Event.backoffSleep 5, Event.backoffSleep 10, Event.backoffSleep 15,
        Event.backoffSleep 20] ∧
    (scrape_channel channel_name now
        (fun i => ⟨ms i, some AttemptErr.generic⟩) fs).records =
      attemptsRecords channel_name now [ms 0, ms 1, ms 2, ms 3, ms 4] fs := by
  refine ⟨rfl, ?_, rfl⟩
  exact filter_backoff_shape _ _ _ _ _
    (processMessages_filter_backoff channel_name now _ _ _)
    (processMessages_filter_backoff channel_name now _ _ _)
    (processMessages_filter_backoff channel_name now _ _ _)
    (processMessages_filter_backoff channel_name now _ _ _)
    (processMessages_filter_backoff channel_name now _ _ _)

/-- C4, counterexample: `messages_data` is not reset when a transient failure
triggers a retry, and a retry restarts `iter_messages` from the top; a run
whose first attempt yields message 1 and then fails transiently, and whose
second attempt yields message 1 again and succeeds, returns message id 1
twice — the output artifact does contain duplicate records. -/
theorem C4_counterexample :
    ((scrape_channel "chan" "t0"
        (fun i => match i with
          | 0 => ⟨[msgC4], some AttemptErr.generic⟩
          | _ + 1 => ⟨[msgC4], none⟩) []).records.map Record.message_id) = [1, 1] ∧
    ¬ ((scrape_channel "chan" "t0"
        (fun i => match i with
          | 0 => ⟨[msgC4], some AttemptErr.generic⟩
          | _ + 1 => ⟨[msgC4], none⟩) []).records.map Record.message_id).Nodup := by
  refine ⟨rfl, ?_⟩
  have e : ((scrape_channel "chan" "t0"
      (fun i => match i with
        | 0 => ⟨[msgC4], some AttemptErr.generic⟩
        | _ + 1 => ⟨[msgC4], none⟩) []).records.map Record.message_id) = [1, 1] := rfl
  rw [e]
  decide

/-- C4, amended: when no transient failure interrupts the iteration (the
first attempt completes), each message id occurs at most once in the returned
sequence provided the source yields pairwise-distinct ids; across
mid-iteration retries the accumulated list is not deduplicated, and the
downstream loader's primary-key conflict handling is the deduplication
boundary. -/
theorem C4_nodup_single_attempt (channel_name now : String) (fs : List String)
    (ms : List RawMessage) (tl : Nat → Attempt)
    (h : (ms.map RawMessage.id).Nodup) :
    ((scrape_channel channel_name now
        (fun i => match i with | 0 => ⟨ms, none⟩ | k + 1 => tl k) fs).records.map
      Record.message_id).Nodup :=
  List.Sublist.nodup (processMessages_ids_sublist channel_name now ms 0 fs) h

/-- C4, witness: a clean single-attempt run over two distinct message ids
returns records with pairwise-distinct ids. -/
theorem C4_witness :
    ((scrape_channel "chan" "t0"
        (fun i => match i with
          | 0 => ⟨[msgC4, msgC4b], none⟩
          | _ + 1 => Attempt.mk [] none) []).records.map Record.message_id).Nodup :=
  C4_nodup_single_attempt "chan" "t0" [] [msgC4, msgC4b]
    (fun _ => Attempt.mk [] none) (by decide)

/-- C5: every record `scrape_channel` returns satisfies `has_media = true`
iff `media_type ≠ none`, and `media_type` is drawn from
{none, photo, document, other}. -/
theorem C5_media_type_invariant (channel_name now : String) (oracle : Nat → Attempt)
    (fs : List String) (r : Record)
    (hr : r ∈ (scrape_channel channel_name now oracle fs).records) :
    (r.has_media = true ↔ r.media_type ≠ none) ∧
    (r.media_type = none ∨ r.media_type = some "photo" ∨
      r.media_type = some "document" ∨ r.media_type = some "other") := by
  obtain ⟨i, fs2, hmem⟩ :=
    scrapeLoop_records_mem channel_name now oracle 5 5 5 0 0 fs r hr
  obtain ⟨-, m, -, fs3, rfl⟩ :=
    processMessages_records_mem channel_name now _ _ _ _ hmem
  exact ⟨(recordFor_inv channel_name now m fs3).1,
    (recordFor_inv channel_name now m fs3).2.1⟩

/-- C5, witness: the record of a photo message from a clean run satisfies the
`has_media`/`media_type` invariant and the enumeration. -/
theorem C5_witness :
    ((recordFor "chan" "t0" msgC5 []).1.has_media = true ↔
      (recordFor "chan" "t0" msgC5 []).1.media_type ≠ none) ∧
    ((recordFor "chan" "t0" msgC5 []).1.media_type = none ∨
      (recordFor "chan" "t0" msgC5 []).1.media_type = some "photo" ∨
      (recordFor "chan" "t0" msgC5 []).1.media_type = some "document" ∨
      (recordFor "chan" "t0" msgC5 []).1.media_type = some "other") :=
  C5_media_type_invariant "chan" "t0" (fun _ => ⟨[msgC5], none⟩) [] _
    (List.mem_singleton.mpr rfl)

/-- C9: no record `scrape_channel` returns has empty or whitespace-only text
— empty-text messages are skipped before persistence — so re-applying the
empty-text filter to the output changes nothing (the filter is idempotent). -/
theorem C9_empty_text_filter_idempotent (channel_name now : String)
    (oracle : Nat → Attempt) (fs : List String) :
    ((scrape_channel channel_name now oracle fs).records.filter
        (fun q => !strippedEmpty q.message_text)) =
      (scrape_channel channel_name now oracle fs).records := by
  apply List.filter_eq_self.mpr
  intro r hr
  obtain ⟨i, fs2, hmem⟩ :=
    scrapeLoop_records_mem channel_name now oracle 5 5 5 0 0 fs r hr
  obtain ⟨hstrip, -⟩ := processMessages_records_mem channel_name now _ _ _ _ hmem
  simp [hstrip]

/-- C10: a record whose attachment is classified `other` has `has_media =
true` but carries no `media_path` key at all, and the download machinery is
never invoked for such messages: every media fetch in the trace belongs to a
yielded message whose attachment is a photo or a document. -/
theorem C10_other_media_no_fetch (channel_name now : String) (oracle : Nat → Attempt)
    (fs : List String) :
    (∀ r, r ∈ (scrape_channel channel_name now oracle fs).records →
      r.media_type = some "other" → r.media_path = none ∧ r.has_media = true) ∧
    (∀ mid : Int, Event.fetchMedia mid ∈ (scrape_channel channel_name now oracle fs).trace →
      ∃ i m, m ∈ (oracle i).msgs ∧ m.id = mid ∧ isDownloadable m.media = true) := by
  constructor
  · intro r hr hother
    obtain ⟨i, fs2, hmem⟩ :=
      scrapeLoop_records_mem channel_name now oracle 5 5 5 0 0 fs r hr
    obtain ⟨-, m, -, fs3, rfl⟩ :=
      processMessages_records_mem channel_name now _ _ _ _ hmem
    exact (recordFor_inv channel_name now m fs3).2.2.1 hother
  · intro mid hmem
    rcases scrapeLoop_trace_events channel_name now oracle 5 5 5 0 0 fs _ hmem with
      ⟨n, hn⟩ | ⟨n, hn⟩ | ⟨i, fs2, hev⟩
    · exact absurd hn (by simp)
    · exact absurd hn (by simp)
    · rcases processMessages_events channel_name now _ _ _ _ hev with h | ⟨m, hm, he, hd⟩
      · exact absurd h (by simp)
      · exact ⟨i, m, hm, by injection he.symm, hd⟩

/-- C10, witness: the record of an other-media message from a clean run has
`has_media = true` and no `media_path` key. -/
theorem C10_witness :
    (recordFor "chan" "t0" msgC10 []).1.media_path = none ∧
    (recordFor "chan" "t0" msgC10 []).1.has_media = true :=
  (C10_other_media_no_fetch "chan" "t0" (fun _ => ⟨[msgC10], none⟩) []).1
    (recordFor "chan" "t0" msgC10 []).1 (List.mem_singleton.mpr rfl) rfl

end TelegramScraper
